import Mathlib

/-!
Shallow embedding of the metrics-aggregation logic of `src/dashboard.py`
(a Streamlit dashboard over pandas DataFrames), together with theorems
settling the specification claims about it.

Modelling conventions, justified against pandas semantics:
* A DataFrame column that may hold SQL NULL / NaN / NaT is embedded as
  `Option _`; `none` is the missing-value marker (NaN/NaT/None).
* `Series.sum()` on a boolean column skips missing values (`skipna=True`
  default), so `df['done'].sum()` is the count of `some true` entries.
* `df[df['done'] == False]` keeps only rows whose entry equals `False`;
  a missing value compares unequal to `False`, so it is the count of
  `some false` entries.
* `Series.mean()` skips missing values and returns NaN when no value
  remains; this is embedded as `Option ℚ` with `none` for the all-null
  case (floats carrying the data are embedded as `ℚ`).
* `pd.to_datetime` maps None to NaT; `.dt.to_period('M')` maps NaT to
  NaT and a timestamp to its calendar-month period, embedded here as an
  abstract month index `Int` (the claims never inspect the inside of a
  month, only equality of month keys); `.astype(str)` renders NaT as the
  literal string "NaT", so the month key of a null `created_at` is the
  string "NaT".
* `groupby(col).size()` groups by the distinct values of the column
  (missing keys would be dropped, but the month column is a string
  column, so "NaT" is an ordinary key) and counts rows per key.  pandas
  returns the groups sorted by key; the claims only concern the
  multiset of (key, count) pairs, so the embedding lists keys in first-
  appearance order (`dedup`).
* `Series.map(dict)` yields the dict value for a known key and the
  missing marker NaN for an unknown key, embedded as `List.lookup`.
* `sort_values('timestamp')` sorts rows ascending by that column; the
  embedding uses a stable insertion sort.  pandas' default sort kind is
  not stable, so theorems whose truth depends on the relative order of
  rows with equal timestamps carry a distinct-timestamps hypothesis.
* `groupby(k).last()` takes, within each group and per column, the last
  non-missing entry (`skipna` default), embedded column-wise below.
* Assigning to a column (`df['month'] = ...`) mutates the frame in
  place; a frame is embedded as its rows plus the extra columns the
  script adds, so the mutation is visible as a changed frame value.
-/

namespace Dashboard

/-- A row of the `blue_tasks` query (the columns the aggregation reads).
`created_at` is embedded at calendar-month granularity: `some m` is a
timestamp falling in abstract month `m`, `none` is SQL NULL. -/
structure TaskRec where
  assignee_name : Option String
  done : Option Bool
  archived : Option Bool
  created_at : Option Int
  deriving Repr, DecidableEq

/-- Line 97: `total_tasks = len(df_tasks)`. -/
def totalTasks (ts : List TaskRec) : Nat := ts.length

/-- Line 98: `completed_tasks = df_tasks['done'].sum()` — a skipna sum of
a boolean column counts the `True` entries. -/
def completedTasks (ts : List TaskRec) : Nat :=
  ts.countP (fun r => r.done == some true)

/-- Line 99: `pending_tasks = len(df_tasks[df_tasks['done'] == False])` —
missing values compare unequal to `False`, so only `some false` rows pass. -/
def pendingTasks (ts : List TaskRec) : Nat :=
  ts.countP (fun r => r.done == some false)

/-- Line 100: `archived_tasks = df_tasks['archived'].sum()`. -/
def archivedTasks (ts : List TaskRec) : Nat :=
  ts.countP (fun r => r.archived == some true)

/-- Lines 151–152: the completion rate is computed only inside
`if total_tasks > 0:`; no rate value exists otherwise (`none`). -/
def completionRate (ts : List TaskRec) : Option ℚ :=
  if 0 < totalTasks ts then
    some ((completedTasks ts : ℚ) / (totalTasks ts : ℚ) * 100)
  else none

/-- Lines 134–135: the month key of a `created_at` cell after
`to_datetime`, `.dt.to_period('M')` and `.astype(str)`: a null becomes
the literal string "NaT", a timestamp its month rendered as a string. -/
def monthCol : Option Int → String
  | none => "NaT"
  | some m => toString m

/-- The `month` column of the tasks frame (line 135). -/
def monthColumn (ts : List TaskRec) : List String :=
  ts.map (fun r => monthCol r.created_at)

/-- Line 136: `monthly_tasks = df_tasks.groupby('month').size()` — one
(key, row-count) pair per distinct month key. -/
def monthlyTasks (ts : List TaskRec) : List (String × Nat) :=
  (monthColumn ts).dedup.map (fun k => (k, (monthColumn ts).count k))

/-- A row of the `dora_deployments` query (the columns the aggregation
reads); `lead_time_minutes` is nullable. -/
structure DeploymentRec where
  status : String
  lead_time_minutes : Option ℚ
  deriving Repr, DecidableEq

/-- Line 165: `total_deployments = len(df_deployments)`. -/
def totalDeployments (ds : List DeploymentRec) : Nat := ds.length

/-- Line 166: `len(df_deployments[df_deployments['status'] == 'success'])`. -/
def successfulDeployments (ds : List DeploymentRec) : Nat :=
  (ds.filter (fun d => d.status == "success")).length

/-- Line 167: `avg_lead_time = df_deployments['lead_time_minutes'].mean()` —
skipna mean; `none` embeds the NaN produced when every value is missing. -/
def avgLeadTime (ds : List DeploymentRec) : Option ℚ :=
  let vs := ds.filterMap (fun d => d.lead_time_minutes)
  if vs.length = 0 then none
  else some (vs.sum / (vs.length : ℚ))

/-- Line 168: `success_rate = (successful / total * 100) if total > 0 else 0`. -/
def successRate (ds : List DeploymentRec) : ℚ :=
  if 0 < totalDeployments ds then
    (successfulDeployments ds : ℚ) / (totalDeployments ds : ℚ) * 100
  else 0

/-- A row of the `sonarcloud_metrics` query (the columns the Tab-3
aggregation reads); `bugs` is kept nullable to model a column with
missing entries, `timestamp` and the others are assumed present. -/
structure QualityRec where
  project_key : String
  timestamp : Nat
  bugs : Option Int
  overall_rating : String
  deriving Repr, DecidableEq

/-- Ascending-timestamp comparison used by `sort_values('timestamp')`. -/
def tsLE (a b : QualityRec) : Prop := a.timestamp ≤ b.timestamp

instance : DecidableRel tsLE := fun a b =>
  inferInstanceAs (Decidable (a.timestamp ≤ b.timestamp))

instance : IsTotal QualityRec tsLE := ⟨fun a b => Nat.le_total a.timestamp b.timestamp⟩

instance : IsTrans QualityRec tsLE := ⟨fun _ _ _ h h' => Nat.le_trans h h'⟩

/-- Line 230: `df_filtered.sort_values('timestamp')` (embedded as a stable
sort; see the header note on pandas' unstable default sort kind). -/
def sortByTimestamp (rows : List QualityRec) : List QualityRec :=
  rows.insertionSort tsLE

/-- The distinct group keys of `groupby('project_key')`, in first-appearance
order (pandas additionally sorts the keys, which no claim depends on). -/
def projectKeys (rows : List QualityRec) : List String :=
  (rows.map (fun r => r.project_key)).dedup

/-- The rows of one `groupby('project_key')` group after the sort of
line 230, in post-sort order. -/
def groupFor (rows : List QualityRec) (p : String) : List QualityRec :=
  (sortByTimestamp rows).filter (fun r => r.project_key == p)

/-- A row of `df_latest` (line 230).  `groupby(...).last()` fills each
column with the group's last non-missing entry for that column. -/
structure LatestRow where
  project_key : String
  timestamp : Nat
  bugs : Option Int
  overall_rating : String
  deriving Repr, DecidableEq

/-- Column-wise `last()` of one group (line 230): per column, the last
non-missing entry; the non-nullable columns just take the last row's value. -/
def lastOfGroup (p : String) (g : List QualityRec) : LatestRow :=
  { project_key := p
    timestamp := ((g.map (fun r => r.timestamp)).getLast?).getD 0
    bugs := (g.filterMap (fun r => r.bugs)).getLast?
    overall_rating := ((g.map (fun r => r.overall_rating)).getLast?).getD "" }

/-- Line 230: `df_latest = df_filtered.sort_values('timestamp')
.groupby('project_key').last().reset_index()`. -/
def dfLatest (rows : List QualityRec) : List LatestRow :=
  (projectKeys rows).map (fun p => lastOfGroup p (groupFor rows p))

/-- Line 255: `rating_order = {'A': 5, 'B': 4, 'C': 3, 'D': 2, 'E': 1}`. -/
def rating_order : List (String × Nat) :=
  [("A", 5), ("B", 4), ("C", 3), ("D", 2), ("E", 1)]

/-- Line 256: `df_latest['overall_rating'].map(rating_order)` applied to one
cell — a dict lookup that yields the missing marker NaN (`none`) for a key
not in the dict. -/
def mapRating (s : String) : Option Nat := rating_order.lookup s

/-- Line 256: the whole `rating_value` column of `df_latest`. -/
def ratingValueCol (l : List LatestRow) : List (Option Nat) :=
  l.map (fun r => mapRating r.overall_rating)

/-- Modelled from the spec: the assignee-ranking view of §4.4 is absent
from `src/dashboard.py` (only this one script is in the repository
snapshot); tasks with a null `assignee_name` are excluded from all
ranking views. -/
def assignedTasks (ts : List TaskRec) : List TaskRec :=
  ts.filter (fun r => r.assignee_name.isSome)

/-- Modelled from the spec: the distinct non-null assignees having at
least one task, in first-appearance order (the original input order that
breaks ties). -/
def assignees (ts : List TaskRec) : List String :=
  ((assignedTasks ts).filterMap (fun r => r.assignee_name)).dedup

/-- Modelled from the spec: one per-assignee aggregate of §4.4(c). -/
structure AssigneeGroup where
  name : String
  total : Nat
  completed : Nat
  deriving Repr, DecidableEq

/-- Modelled from the spec: total and completed task counts per assignee,
listed in first-appearance (input) order. -/
def groupsOf (ts : List TaskRec) : List AssigneeGroup :=
  (assignees ts).map (fun a =>
    { name := a
      total := ts.countP (fun r => r.assignee_name == some a)
      completed :=
        ts.countP (fun r => r.assignee_name == some a && r.done == some true) })

/-- Modelled from the spec: the ranking order on input-indexed assignee
groups — descending by completed count, ties broken by the smaller input
index (the stable tie-break of §4.4(c)). -/
def rankLE (a b : Nat × AssigneeGroup) : Prop :=
  b.2.completed < a.2.completed ∨
    (a.2.completed = b.2.completed ∧ a.1 ≤ b.1)

instance : DecidableRel rankLE := fun a b =>
  inferInstanceAs (Decidable (b.2.completed < a.2.completed ∨
    (a.2.completed = b.2.completed ∧ a.1 ≤ b.1)))

instance : IsTotal (Nat × AssigneeGroup) rankLE := by
  constructor
  intro a b
  rcases Nat.lt_trichotomy a.2.completed b.2.completed with h | h | h
  · exact Or.inr (Or.inl h)
  · rcases Nat.le_total a.1 b.1 with h' | h'
    · exact Or.inl (Or.inr ⟨h, h'⟩)
    · exact Or.inr (Or.inr ⟨h.symm, h'⟩)
  · exact Or.inl (Or.inl h)

instance : IsTrans (Nat × AssigneeGroup) rankLE := by
  constructor
  intro a b c hab hbc
  rcases hab with hab | ⟨he, hi⟩
  · rcases hbc with hbc | ⟨he', _⟩
    · exact Or.inl (Nat.lt_trans hbc hab)
    · exact Or.inl (he' ▸ hab)
  · rcases hbc with hbc | ⟨he', hi'⟩
    · exact Or.inl (he ▸ hbc)
    · exact Or.inr ⟨he.trans he', Nat.le_trans hi hi'⟩

/-- Modelled from the spec: the assignee groups tagged with their input
position and stably sorted for the ranking table. -/
def rankedGroups (ts : List TaskRec) : List (Nat × AssigneeGroup) :=
  ((groupsOf ts).enum).insertionSort rankLE

/-- Modelled from the spec: one row of the combined ranking table of
§4.4(c); `position` is 1-based and assigned after the sort. -/
structure RankRow where
  position : Nat
  assignee : String
  total : Nat
  completed : Nat
  pending : Nat
  deriving Repr, DecidableEq

/-- Modelled from the spec: positions are assigned after the sort,
densely from `p` upward. -/
def addPositions : Nat → List (Nat × AssigneeGroup) → List RankRow
  | _, [] => []
  | p, (_, g) :: rest =>
    { position := p, assignee := g.name, total := g.total,
      completed := g.completed, pending := g.total - g.completed } ::
      addPositions (p + 1) rest

/-- Modelled from the spec: the combined ranking table of §4.4(c). -/
def rankingTable (ts : List TaskRec) : List RankRow :=
  addPositions 1 (rankedGroups ts)

/-- The tasks DataFrame as the script sees it: the queried rows plus the
`month` column the script itself adds (absent in the frame the loader
returns, hence `Option`). -/
structure TasksFrame where
  rows : List TaskRec
  month_col : Option (List String)
  deriving Repr, DecidableEq

/-- Lines 134–135: `df_tasks['created_at'] = pd.to_datetime(...)` and
`df_tasks['month'] = ...` assign columns on the existing frame in place. -/
def addMonthColumn (df : TasksFrame) : TasksFrame :=
  { df with month_col := some (monthColumn df.rows) }

/-- Tab 1 as a pipeline over the tasks frame: the KPI block of lines
97–100 plus the month-column assignment of lines 134–135; the script has
no other task frame, so the frame it returns is the frame later code
(and later reruns) observe. -/
def tab1Pipeline (df : TasksFrame) : TasksFrame × (Nat × Nat × Nat × Nat) :=
  (addMonthColumn df,
    (totalTasks df.rows, completedTasks df.rows,
      pendingTasks df.rows, archivedTasks df.rows))

/-- Concrete fixture matching the spec example: 10 tasks, 6 done, 2
archived, one null `created_at`. -/
def exTasks : List TaskRec :=
  [⟨some "ana", some true, some true, some 1⟩,
   ⟨some "ana", some true, some false, some 1⟩,
   ⟨some "bruno", some true, some false, some 2⟩,
   ⟨some "bruno", some false, some false, some 2⟩,
   ⟨some "carla", some true, some false, some 2⟩,
   ⟨some "carla", some true, some true, some 3⟩,
   ⟨some "carla", some true, some false, some 3⟩,
   ⟨none, some false, some false, some 3⟩,
   ⟨some "ana", some false, some false, none⟩,
   ⟨some "bruno", some false, some false, some 4⟩]

/-- A record whose `done` is SQL NULL. -/
def nullDoneTask : TaskRec := ⟨none, none, none, some 0⟩

/-- A record whose `created_at` is SQL NULL. -/
def noDateTask : TaskRec := ⟨none, some false, some false, none⟩

/-- Concrete fixture matching the spec example: 5 deployments, 4 with
status "success", lead times [10, 20, null, 15, 25]. -/
def exDeps : List DeploymentRec :=
  [⟨"success", some 10⟩, ⟨"success", some 20⟩, ⟨"failed", none⟩,
   ⟨"success", some 15⟩, ⟨"success", some 25⟩]

/-- A non-empty deployment set whose lead times are all NULL. -/
def allNullDeps : List DeploymentRec :=
  [⟨"success", none⟩, ⟨"failed", none⟩]

/-- Two snapshots of one project; the newer one has a NULL `bugs` cell. -/
def exQuality : List QualityRec :=
  [⟨"X", 1, some 5, "A"⟩, ⟨"X", 2, none, "B"⟩]

/-- A `df_latest` row carrying a rating letter outside A–E. -/
def exBadRatingRow : LatestRow := ⟨"X", 2, some 5, "F"⟩

/-- The tasks frame as loaded from the database: no `month` column yet. -/
def freshFrame (ts : List TaskRec) : TasksFrame := ⟨ts, none⟩

lemma completedTasks_eq_countP (ts : List TaskRec) :
    completedTasks ts = ts.countP (fun r => decide (r.done = some true)) := by
  unfold completedTasks
  have h : ∀ r : TaskRec, (r.done == some true)
      = decide (r.done = some true) := by
    intro r
    rcases r.done with _ | b
    · rfl
    · cases b <;> rfl
  rw [funext h]

lemma pendingTasks_eq_countP (ts : List TaskRec) :
    pendingTasks ts = ts.countP (fun r => decide (r.done = some false)) := by
  unfold pendingTasks
  have h : ∀ r : TaskRec, (r.done == some false)
      = decide (r.done = some false) := by
    intro r
    rcases r.done with _ | b
    · rfl
    · cases b <;> rfl
  rw [funext h]

lemma archivedTasks_eq_countP (ts : List TaskRec) :
    archivedTasks ts = ts.countP (fun r => decide (r.archived = some true)) := by
  unfold archivedTasks
  have h : ∀ r : TaskRec, (r.archived == some true)
      = decide (r.archived = some true) := by
    intro r
    rcases r.archived with _ | b
    · rfl
    · cases b <;> rfl
  rw [funext h]

/-- The two `done` counts together count exactly the rows whose `done`
is present (a boolean, not NULL). -/
lemma completed_add_pending (ts : List TaskRec) :
    completedTasks ts + pendingTasks ts
      = ts.countP (fun r => r.done.isSome) := by
  induction ts with
  | nil => rfl
  | cons r ts ih =>
    simp only [completedTasks, pendingTasks, List.countP_cons] at *
    rcases hd : r.done with _ | b
    · simpa [hd] using ih
    · cases b <;> simp [hd] <;> omega

/-- C1: for a task collection in which `done` is a boolean (non-null) on
every record, the KPI block reports total = number of records, completed
= number with done = true, pending = number with done = false, archived
= number with archived = true, and completed + pending = total. -/
theorem C1_task_kpis (ts : List TaskRec) (h : ∀ r ∈ ts, r.done.isSome) :
    totalTasks ts = ts.length ∧
    completedTasks ts = ts.countP (fun r => decide (r.done = some true)) ∧
    pendingTasks ts = ts.countP (fun r => decide (r.done = some false)) ∧
    archivedTasks ts = ts.countP (fun r => decide (r.archived = some true)) ∧
    completedTasks ts + pendingTasks ts = totalTasks ts := by
  refine ⟨rfl, completedTasks_eq_countP ts, pendingTasks_eq_countP ts,
    archivedTasks_eq_countP ts, ?_⟩
  rw [completed_add_pending]
  exact List.countP_eq_length.2 (fun r hr => h r hr)

/-- Witness: C1 at the 10-task fixture of the spec example. -/
theorem C1_task_kpis_witness :
    (∀ r ∈ exTasks, r.done.isSome) ∧
    (totalTasks exTasks = exTasks.length ∧
      completedTasks exTasks
        = exTasks.countP (fun r => decide (r.done = some true)) ∧
      pendingTasks exTasks
        = exTasks.countP (fun r => decide (r.done = some false)) ∧
      archivedTasks exTasks
        = exTasks.countP (fun r => decide (r.archived = some true)) ∧
      completedTasks exTasks + pendingTasks exTasks = totalTasks exTasks) :=
  ⟨by decide, C1_task_kpis exTasks (by decide)⟩

/-- C2 counterexample: at an empty task collection the code computes no
completion rate at all (the `if total_tasks > 0` block is skipped), so
the reported rate is the absent value, not the number 0 the claim
requires. -/
theorem C2_zero_total_cex :
    completionRate [] = none ∧ completionRate [] ≠ some 0 :=
  ⟨rfl, fun h => Option.noConfusion h⟩

/-- C2 (amended): when total > 0 the completion rate equals
completed / total × 100 and lies in [0, 100]; when total = 0 no rate is
computed (the guard skips the block, so nothing can raise), rather than
a rate of 0 being reported. -/
theorem C2_completion_rate (ts : List TaskRec) :
    (totalTasks ts = 0 → completionRate ts = none) ∧
    (0 < totalTasks ts →
      completionRate ts
        = some ((completedTasks ts : ℚ) / (totalTasks ts : ℚ) * 100)) ∧
    (∀ q : ℚ, completionRate ts = some q → 0 ≤ q ∧ q ≤ 100) := by
  by_cases h : 0 < totalTasks ts
  · refine ⟨fun h0 => absurd h0 (Nat.pos_iff_ne_zero.1 h), fun _ => ?_, ?_⟩
    · simp [completionRate, h]
    · intro q hq
      simp only [completionRate, if_pos h, Option.some.injEq] at hq
      subst hq
      have hc : completedTasks ts ≤ totalTasks ts :=
        List.countP_le_length _
      have ht : (0 : ℚ) < (totalTasks ts : ℚ) := by exact_mod_cast h
      constructor
      · positivity
      · have hdiv : (completedTasks ts : ℚ) / (totalTasks ts : ℚ) ≤ 1 := by
          rw [div_le_one ht]
          exact_mod_cast hc
        calc (completedTasks ts : ℚ) / (totalTasks ts : ℚ) * 100
            ≤ 1 * 100 := by nlinarith
          _ = 100 := one_mul 100
  · have h0 : completionRate ts = none := by simp [completionRate, h]
    exact ⟨fun _ => h0, fun hpos => absurd hpos h,
      fun q hq => absurd (h0 ▸ hq) (fun hx => Option.noConfusion hx)⟩

/-- Witness: C2 (amended) at the empty collection and at the 10-task
fixture. -/
theorem C2_completion_rate_witness :
    completionRate ([] : List TaskRec) = none ∧
    completionRate exTasks
      = some ((completedTasks exTasks : ℚ) / (totalTasks exTasks : ℚ) * 100) :=
  ⟨(C2_completion_rate []).1 rfl, (C2_completion_rate exTasks).2.1 (by decide)⟩

/-- C9 counterexample: a record with a NULL `done` does not make the KPI
block fail — the skipna sum and the `== False` filter both silently skip
it, so the block returns total = 1, completed = 0, pending = 0 and the
record is coerced out of both counts (completed + pending ≠ total). -/
theorem C9_null_done_cex :
    totalTasks [nullDoneTask] = 1 ∧
    completedTasks [nullDoneTask] = 0 ∧
    pendingTasks [nullDoneTask] = 0 ∧
    completedTasks [nullDoneTask] + pendingTasks [nullDoneTask]
      ≠ totalTasks [nullDoneTask] := by
  decide

/-- C9 (amended): a NULL `done` never raises a validation error; the KPI
block always returns counts, with the null rows silently excluded from
both completed and pending, so completed + pending counts exactly the
non-null `done` rows and falls short of total whenever a null is
present. -/
theorem C9_null_done_silent (ts : List TaskRec) :
    completedTasks ts + pendingTasks ts
      = ts.countP (fun r => r.done.isSome) ∧
    (∀ r ∈ ts, r.done = none →
      completedTasks ts + pendingTasks ts < totalTasks ts) := by
  refine ⟨completed_add_pending ts, fun r hr hnone => ?_⟩
  rw [completed_add_pending]
  refine Nat.lt_of_le_of_ne (List.countP_le_length _) (fun heq => ?_)
  have := List.countP_eq_length.1 heq r hr
  rw [hnone] at this
  exact Bool.noConfusion this

/-- Witness: C9 (amended) at the one-record collection whose `done` is
NULL. -/
theorem C9_null_done_silent_witness :
    (completedTasks [nullDoneTask] + pendingTasks [nullDoneTask]
      = [nullDoneTask].countP (fun r => r.done.isSome)) ∧
    completedTasks [nullDoneTask] + pendingTasks [nullDoneTask]
      < totalTasks [nullDoneTask] :=
  ⟨(C9_null_done_silent [nullDoneTask]).1,
    (C9_null_done_silent [nullDoneTask]).2 nullDoneTask (by decide) rfl⟩

/-- C4 counterexample: a record with a NULL `created_at` is not dropped
from the month grouping — `astype(str)` turns its NaT month into the
literal string "NaT", which `groupby` keeps as an ordinary key, so the
bucket counts sum to 1 while the number of non-null `created_at` records
is 0. -/
theorem C4_nat_bucket_cex :
    monthlyTasks [noDateTask] = [("NaT", 1)] ∧
    [noDateTask].countP (fun r => r.created_at.isSome) = 0 ∧
    ((monthlyTasks [noDateTask]).map (fun kv => kv.2)).sum
      ≠ [noDateTask].countP (fun r => r.created_at.isSome) := by
  decide

/-- C4 (amended): the month-bucket counts sum to the total number of
records — records with a NULL `created_at` are not excluded but grouped
under the key "NaT". -/
theorem C4_month_bucket_sum (ts : List TaskRec) :
    ((monthlyTasks ts).map (fun kv => kv.2)).sum = totalTasks ts ∧
    (∀ r ∈ ts, r.created_at = none → monthCol r.created_at = "NaT") := by
  constructor
  · have h1 : (monthlyTasks ts).map (fun kv => kv.2)
        = (monthColumn ts).dedup.map (fun k => (monthColumn ts).count k) := by
      simp [monthlyTasks]
    rw [h1, List.sum_map_count_dedup_eq_length, monthColumn,
      List.length_map]
    rfl
  · intro r _ hnone
    rw [hnone]
    rfl

/-- Witness: C4 (amended) at the one-record collection whose
`created_at` is NULL. -/
theorem C4_month_bucket_sum_witness :
    ((monthlyTasks [noDateTask]).map (fun kv => kv.2)).sum
      = totalTasks [noDateTask] ∧
    monthCol noDateTask.created_at = "NaT" :=
  ⟨(C4_month_bucket_sum [noDateTask]).1,
    (C4_month_bucket_sum [noDateTask]).2 noDateTask (by decide) rfl⟩

/-- C5: the successful count is the number of records whose status is
exactly the case-sensitive string "success"; the success rate is
successful / total × 100 with 0 for an empty set; the average lead time
is the mean over the non-null lead times only; on the spec's 5-record
example the rate is 80 and the average lead time 17.5. -/
theorem C5_dora_kpis (ds : List DeploymentRec) :
    successfulDeployments ds
      = ds.countP (fun d => decide (d.status = "success")) ∧
    (totalDeployments ds = 0 → successRate ds = 0) ∧
    (0 < totalDeployments ds →
      successRate ds
        = (successfulDeployments ds : ℚ) / (totalDeployments ds : ℚ) * 100) ∧
    (ds.filterMap (fun d => d.lead_time_minutes) ≠ [] →
      avgLeadTime ds
        = some ((ds.filterMap (fun d => d.lead_time_minutes)).sum
            / ((ds.filterMap (fun d => d.lead_time_minutes)).length : ℚ))) ∧
    successRate exDeps = 80 ∧
    avgLeadTime exDeps = some (35 / 2) := by
  refine ⟨?_, ?_, ?_, ?_, ?_, ?_⟩
  · unfold successfulDeployments
    rw [← List.countP_eq_length_filter]
    have h : ∀ d : DeploymentRec,
        (d.status == "success") = decide (d.status = "success") := by
      intro d
      by_cases hd : d.status = "success" <;> simp [hd]
    simp only [h]
  · intro h0
    simp [successRate, h0]
  · intro hpos
    simp [successRate, hpos]
  · intro hne
    have hlen : (ds.filterMap (fun d => d.lead_time_minutes)).length ≠ 0 :=
      fun h0 => hne (List.length_eq_zero.1 h0)
    simp [avgLeadTime, hlen]
  · have h1 : successfulDeployments exDeps = 4 := by decide
    have h2 : totalDeployments exDeps = 5 := rfl
    rw [successRate, h2, h1]
    norm_num
  · have h3 : exDeps.filterMap (fun d => d.lead_time_minutes)
        = [10, 20, 15, 25] := rfl
    rw [avgLeadTime, h3]
    norm_num

/-- Witness: C5 with each hypothesis discharged — the zero-total branch
at the empty set, the positive branch and the mean at the 5-record
fixture. -/
theorem C5_dora_kpis_witness :
    successRate ([] : List DeploymentRec) = 0 ∧
    successRate exDeps
      = (successfulDeployments exDeps : ℚ) / (totalDeployments exDeps : ℚ) * 100 ∧
    avgLeadTime exDeps
      = some ((exDeps.filterMap (fun d => d.lead_time_minutes)).sum
          / ((exDeps.filterMap (fun d => d.lead_time_minutes)).length : ℚ)) :=
  ⟨(C5_dora_kpis []).2.1 rfl,
    (C5_dora_kpis exDeps).2.2.1 (by decide),
    (C5_dora_kpis exDeps).2.2.2.1 (by decide)⟩

/-- C6: when every lead time in a non-empty deployment set is NULL, the
skipna mean has no value left, and the result is the distinct missing
marker (pandas NaN, embedded as `none`) — never equal to `some q` for
any numeric q. -/
theorem C6_all_null_lead (ds : List DeploymentRec) (_h0 : ds ≠ [])
    (hnull : ∀ d ∈ ds, d.lead_time_minutes = none) :
    avgLeadTime ds = none ∧ ∀ q : ℚ, avgLeadTime ds ≠ some q := by
  have hfm : ds.filterMap (fun d => d.lead_time_minutes) = [] :=
    List.filterMap_eq_nil_iff.2 hnull
  have hn : avgLeadTime ds = none := by simp [avgLeadTime, hfm]
  exact ⟨hn, fun q hq => Option.noConfusion (hn ▸ hq)⟩

/-- Witness: C6 at a two-record deployment set with all-NULL lead times. -/
theorem C6_all_null_lead_witness :
    avgLeadTime allNullDeps = none :=
  (C6_all_null_lead allNullDeps (by decide) (by decide)).1

/-- C8 counterexample: a rating letter outside A–E does not make the
mapping fail — `Series.map` on a dict silently yields the missing marker
NaN (`none`), and the `rating_value` column is built without any error. -/
theorem C8_unknown_rating_cex :
    mapRating "F" = none ∧ ratingValueCol [exBadRatingRow] = [none] := by
  decide

/-- C8 (amended): the mapping assigns A=5, B=4, C=3, D=2, E=1, and any
other string is silently mapped to the missing value `none` (NaN) rather
than raising a data-validation error. -/
theorem C8_rating_map (s : String) :
    (mapRating "A" = some 5 ∧ mapRating "B" = some 4 ∧
      mapRating "C" = some 3 ∧ mapRating "D" = some 2 ∧
      mapRating "E" = some 1) ∧
    (s ∉ ["A", "B", "C", "D", "E"] → mapRating s = none) := by
  refine ⟨by decide, fun hs => ?_⟩
  simp only [List.mem_cons, List.not_mem_nil, or_false, not_or] at hs
  obtain ⟨h1, h2, h3, h4, h5⟩ := hs
  simp [mapRating, rating_order, List.lookup,
    beq_eq_false_iff_ne.2 h1, beq_eq_false_iff_ne.2 h2,
    beq_eq_false_iff_ne.2 h3, beq_eq_false_iff_ne.2 h4,
    beq_eq_false_iff_ne.2 h5]

/-- Witness: C8 (amended) at the out-of-range letter "F". -/
theorem C8_rating_map_witness :
    ("F" ∉ ["A", "B", "C", "D", "E"]) ∧ mapRating "F" = none :=
  ⟨by decide, (C8_rating_map "F").2 (by decide)⟩

/-- C10 counterexample: running the Tab-1 pipeline on the freshly loaded
empty frame returns a changed frame — the `month` column has been
assigned in place, so the input collection is not left unchanged. -/
theorem C10_mutation_cex :
    (tab1Pipeline (freshFrame [])).1 ≠ freshFrame [] ∧
    (tab1Pipeline (freshFrame [])).1.month_col = some [] := by
  decide

/-- C10 (amended): the pipeline is not pure in its frames — Tab 1
assigns the `month` column (and re-types `created_at`) on the task frame
in place, so whenever the frame arrives without that column the frame
after the pipeline differs from the frame before.  (Likewise Tab 2
re-types `deployment_timestamp` at line 185 and Tab 3 re-types
`timestamp` at line 309 on `df_filtered`, which is the unfiltered
`df_sonarcloud` itself when no project filter is selected.) -/
theorem C10_frame_mutated (df : TasksFrame) (h : df.month_col = none) :
    (tab1Pipeline df).1.month_col = some (monthColumn df.rows) ∧
    (tab1Pipeline df).1 ≠ df := by
  refine ⟨rfl, fun heq => ?_⟩
  have hcol : (tab1Pipeline df).1.month_col = df.month_col := by rw [heq]
  rw [h] at hcol
  exact Option.noConfusion hcol

/-- Witness: C10 (amended) at the freshly loaded 10-task frame. -/
theorem C10_frame_mutated_witness :
    (freshFrame exTasks).month_col = none ∧
    (tab1Pipeline (freshFrame exTasks)).1 ≠ freshFrame exTasks :=
  ⟨rfl, (C10_frame_mutated (freshFrame exTasks) rfl).2⟩

lemma addPositions_map_position (l : List (Nat × AssigneeGroup)) (p : Nat) :
    (addPositions p l).map (fun row => row.position) = List.range' p l.length := by
  induction l generalizing p with
  | nil => rfl
  | cons a rest ih =>
    obtain ⟨i, g⟩ := a
    simp only [addPositions, List.map_cons, List.length_cons,
      List.range'_succ, ih]

/-- C3: the ranking table's positions form the dense 1-based sequence
1..N, where N is the number of distinct non-null assignees with at least
one task; the ranked rows are a permutation of the input-indexed
assignee groups arranged so that completed counts descend and tied
groups keep their original input order (`rankLE` is exactly that
order, so sortedness under it together with the permutation is the
stable descending sort of the claim). -/
theorem C3_ranking_dense_stable (ts : List TaskRec) :
    (rankingTable ts).map (fun row => row.position)
      = List.range' 1 (assignees ts).length ∧
    List.Perm (rankedGroups ts) ((groupsOf ts).enum) ∧
    List.Sorted rankLE (rankedGroups ts) := by
  refine ⟨?_, List.perm_insertionSort rankLE _, List.sorted_insertionSort rankLE _⟩
  rw [rankingTable, addPositions_map_position]
  have h1 : (rankedGroups ts).length = ((groupsOf ts).enum).length :=
    (List.perm_insertionSort rankLE _).length_eq
  rw [h1, List.enum_length, groupsOf, List.length_map]

lemma le_getLast_of_sorted :
    ∀ {l : List Nat}, l.Pairwise (· ≤ ·) → ∀ (hne : l ≠ []),
      ∀ x ∈ l, x ≤ l.getLast hne := by
  intro l
  induction l with
  | nil => intro _ hne; exact absurd rfl hne
  | cons a t ih =>
    intro hs hne x hx
    rcases List.mem_cons.1 hx with rfl | hxt
    · cases t with
      | nil => exact Nat.le_refl _
      | cons b t' =>
        rw [List.getLast_cons (List.cons_ne_nil b t')]
        exact (List.pairwise_cons.1 hs).1 _
          (List.getLast_mem (List.cons_ne_nil b t'))
    · have ht : t ≠ [] := List.ne_nil_of_mem hxt
      rw [List.getLast_cons ht]
      exact ih (List.pairwise_cons.1 hs).2 ht x hxt

lemma groupFor_pairwise (rows : List QualityRec) (p : String) :
    (groupFor rows p).Pairwise tsLE :=
  (List.sorted_insertionSort tsLE rows).filter _

lemma groupFor_ne_nil (rows : List QualityRec) (p : String)
    (hp : p ∈ projectKeys rows) : groupFor rows p ≠ [] := by
  obtain ⟨r, hr, hrp⟩ := List.mem_map.1 (List.mem_dedup.1 hp)
  have hr' : r ∈ sortByTimestamp rows :=
    (List.perm_insertionSort tsLE rows).mem_iff.2 hr
  exact List.ne_nil_of_mem (List.mem_filter.2 ⟨hr', by simp [hrp]⟩)

/-- C7 counterexample: for two snapshots of project "X" at timestamps 1
and 2 where the newer row has a NULL `bugs` cell, `groupby(...).last()`
assembles the "latest" row column-wise — it reports bugs = 5 taken from
the older row together with timestamp 2, a combination that is not the
max-timestamp input row (whose bugs cell is NULL), so the latest
snapshot is not "the row with the maximum timestamp". -/
theorem C7_column_mix_cex :
    dfLatest exQuality = [⟨"X", 2, some 5, "B"⟩] ∧
    exQuality.filter (fun r => r.timestamp == 2)
      = [⟨"X", 2, none, "B"⟩] ∧
    (⟨"X", 2, some 5, "B"⟩ : LatestRow).bugs
      ≠ (⟨"X", 2, none, "B"⟩ : QualityRec).bugs := by
  decide

/-- C7 (amended): within the (optionally project-filtered) subset, the
per-project "latest" row of `df_latest` carries the maximum timestamp of
the project's rows, but its other columns are filled column-wise with
the last non-NULL value in timestamp-ascending order — it is the
max-timestamp row itself only when that row has no missing cells.  The
relative order of rows sharing a timestamp comes from pandas' default
unstable sort, so the theorem assumes pairwise-distinct timestamps
within the group (the embedding's stable sort and the code agree there);
with ties the selected values are implementation-dependent. -/
theorem C7_latest_per_project (rows : List QualityRec) (p : String)
    (hp : p ∈ projectKeys rows)
    (_hd : (groupFor rows p).Pairwise
      (fun a b => a.timestamp ≠ b.timestamp)) :
    ((lastOfGroup p (groupFor rows p)).timestamp
        ∈ (groupFor rows p).map (fun r => r.timestamp)) ∧
    (∀ r ∈ groupFor rows p,
      r.timestamp ≤ (lastOfGroup p (groupFor rows p)).timestamp) ∧
    (lastOfGroup p (groupFor rows p)).bugs
      = ((groupFor rows p).filterMap (fun r => r.bugs)).getLast? ∧
    lastOfGroup p (groupFor rows p) ∈ dfLatest rows := by
  have hne : groupFor rows p ≠ [] := groupFor_ne_nil rows p hp
  have hmne : (groupFor rows p).map (fun r => r.timestamp) ≠ [] := by
    intro h
    exact hne (List.map_eq_nil_iff.1 h)
  have hts : (lastOfGroup p (groupFor rows p)).timestamp
      = ((groupFor rows p).map (fun r => r.timestamp)).getLast hmne := by
    simp only [lastOfGroup, List.getLast?_eq_getLast _ hmne, Option.getD_some]
  have hsorted : ((groupFor rows p).map (fun r => r.timestamp)).Pairwise
      (· ≤ ·) :=
    (groupFor_pairwise rows p).map _ (fun _ _ h => h)
  refine ⟨?_, ?_, rfl, ?_⟩
  · rw [hts]
    exact List.getLast_mem hmne
  · intro r hr
    rw [hts]
    exact le_getLast_of_sorted hsorted hmne r.timestamp
      (List.mem_map_of_mem _ hr)
  · exact List.mem_map_of_mem _ hp

/-- Witness: C7 (amended) at the two-snapshot fixture for project "X"
(distinct timestamps 1 and 2). -/
theorem C7_latest_per_project_witness :
    ("X" ∈ projectKeys exQuality) ∧
    (∀ r ∈ groupFor exQuality "X",
      r.timestamp ≤ (lastOfGroup "X" (groupFor exQuality "X")).timestamp) :=
  ⟨by decide,
    (C7_latest_per_project exQuality "X" (by decide) (by decide)).2.1⟩

end Dashboard
